import Mathlib

/-!
Verification development for the book-catalogue program (`main3.py`).

The core of the program is the `Library` class: an in-memory list of `Book`
records mirrored to two canonical files (`library_data.json`,
`library_data.csv`), with add / remove / search operations and with JSON /
CSV importing and exporting.

Shallow embedding conventions:
  * Python runtime values that can appear in a record field are modelled by
    `PyVal` (a string, an integer, or `None`): Python performs no type check
    when a `Book` is built, so fields are dynamically typed.
  * Python exceptions are modelled by `Except PyError`.
  * The two canonical files are modelled by `FS`: each file is either absent
    (`Option.none`) or holds some bytes, abstracted as `FileData`.  Bytes that
    `json.load` accepts as an array of objects are `FileData.jsonArr`; bytes
    viewed through `csv.DictReader` as a header line plus data rows are
    `FileData.csvTable`; anything else is `FileData.malformed` (a read of it
    fails in either parser).  The byte-level framing of the `json` and `csv`
    modules (quoting, escaping) is abstracted away: a serialized collection is
    represented by its parsed structure, which those modules reproduce exactly.
  * File I/O always succeeds in the model except where a claim is about I/O
    failure, which is represented by reading an absent file (`Option.none`).
-/

/-- Python runtime value that can sit in a record field: `str`, `int`, or
`None` (`None` arises from `csv.DictReader`'s fill value for short rows). -/
inductive PyVal where
  | str : String → PyVal
  | int : Int → PyVal
  | none : PyVal
deriving DecidableEq

/-- Kinds of Python exceptions raised by the code paths being modelled. -/
inductive PyError where
  | keyError : String → PyError
  | valueError : PyError
  | typeError : PyError
  | attributeError : PyError
  | jsonDecodeError : PyError
  | ioError : PyError
deriving DecidableEq

/-- Python `str.lower()` (character-wise lowercasing, as the code only ever
compares ASCII case). -/
def pyLower (s : String) : String :=
  (s.toList.map Char.toLower).asString

/-- Decides whether `needle` occurs contiguously inside `hay` (Python's
`needle in hay` on strings), by checking a prefix at every position. -/
def listContains (hay needle : List Char) : Bool :=
  match hay with
  | [] => needle.isPrefixOf []
  | c :: t => needle.isPrefixOf (c :: t) || listContains t needle

/-- Python `needle in hay` for strings. -/
def pyStrIn (needle hay : String) : Bool :=
  listContains hay.toList needle.toList

/-- Python `s.endswith(suffix)`. -/
def pyEndsWith (s suffix : String) : Bool :=
  List.isSuffixOf suffix.toList s.toList

/-- Numeric value of a decimal digit character. -/
def digitVal (c : Char) : Nat := c.toNat - 48

/-- Little-endian decimal digit characters of `n`, with explicit fuel so that
the definition is structurally recursive (the fuel `n` itself always
suffices). -/
def natDecRevFuel : Nat → Nat → List Char
  | 0, _ => []
  | fuel + 1, n =>
    if n = 0 then []
    else Char.ofNat (48 + n % 10) :: natDecRevFuel fuel (n / 10)

/-- Decimal digit characters of `n`, most significant first. -/
def pyStrNatList (n : Nat) : List Char :=
  if n = 0 then ['0'] else (natDecRevFuel n n).reverse

/-- Python `str(i)` for an integer `i`. -/
def pyStrInt : Int → String
  | Int.ofNat m => (pyStrNatList m).asString
  | Int.negSucc m => ('-' :: pyStrNatList (m + 1)).asString

/-- Strip leading and trailing whitespace characters. -/
def stripWS (cs : List Char) : List Char :=
  ((cs.dropWhile Char.isWhitespace).reverse.dropWhile Char.isWhitespace).reverse

/-- Value of a big-endian decimal digit string. -/
def decValue (cs : List Char) : Nat :=
  cs.foldl (fun a c => a * 10 + digitVal c) 0

/-- Python `int(s)` on a string: surrounding whitespace is stripped, then an
optional single sign is followed by a nonempty run of decimal digits (digit
grouping with underscores, accepted by the builtin, is not modelled as the
program never produces it). -/
def pyParseInt (s : String) : Option Int :=
  match stripWS s.toList with
  | [] => none
  | c :: rest =>
    if c = '+' then
      if !rest.isEmpty && rest.all Char.isDigit then some ((decValue rest : Nat) : Int)
      else none
    else if c = '-' then
      if !rest.isEmpty && rest.all Char.isDigit then some (-((decValue rest : Nat) : Int))
      else none
    else if (c :: rest).all Char.isDigit then some ((decValue (c :: rest) : Nat) : Int)
    else none

/-- Python `v.lower()` on a dynamic value: only strings have the method,
anything else raises `AttributeError`. -/
def PyVal.lower : PyVal → Except PyError String
  | .str s => .ok (pyLower s)
  | _ => .error .attributeError

/-- Python `int(v)` on a dynamic value: a string is parsed (`ValueError` on
failure), an integer is returned unchanged, `None` raises `TypeError`. -/
def pyIntOf : PyVal → Except PyError Int
  | .str s =>
    match pyParseInt s with
    | some n => .ok n
    | none => .error .valueError
  | .int n => .ok n
  | .none => .error .typeError

/-- The string the `csv` writer emits for a cell value: strings verbatim,
integers via `str()`, `None` as the empty string. -/
def csvStr : PyVal → String
  | .str s => s
  | .int n => pyStrInt n
  | .none => ""

/-- A book record (`Book` in `main3.py`).  Field types are dynamic because the
constructor stores whatever it is given. -/
structure Book where
  title : PyVal
  author : PyVal
  genre : PyVal
  year : PyVal
deriving DecidableEq

def PyVal.isStr : PyVal → Bool
  | .str _ => true
  | _ => false

def PyVal.isInt : PyVal → Bool
  | .int _ => true
  | _ => false

/-- A well-formed record in the sense of the data model: string title, author
and genre, integer year. -/
def Book.wf (b : Book) : Bool :=
  b.title.isStr && b.author.isStr && b.genre.isStr && b.year.isInt

/-- A Python dict with string keys, as produced by `json.load` for one record
object. -/
abbrev Dict := List (String × PyVal)

/-- Python `d[k]`: the value under `k`, or a `KeyError`. -/
def dictGet (d : Dict) (k : String) : Except PyError PyVal :=
  match d.lookup k with
  | some v => .ok v
  | none => .error (.keyError k)

/-- `Book.to_dict` from `main3.py`. -/
def Book.to_dict (b : Book) : Dict :=
  [("title", b.title), ("author", b.author), ("genre", b.genre), ("year", b.year)]

/-- `Book.from_dict` from `main3.py`: four plain subscript lookups and a
constructor call, with no type checking of the values. -/
def Book.from_dict (d : Dict) : Except PyError Book :=
  match dictGet d "title" with
  | .error e => .error e
  | .ok t =>
    match dictGet d "author" with
    | .error e => .error e
    | .ok a =>
      match dictGet d "genre" with
      | .error e => .error e
      | .ok g =>
        match dictGet d "year" with
        | .error e => .error e
        | .ok y => .ok ⟨t, a, g, y⟩

/-- Abstracted contents of a file on disk (see the module comment). -/
inductive FileData where
  | jsonArr : List Dict → FileData
  | csvTable : List String → List (List String) → FileData
  | malformed : FileData
deriving DecidableEq

/-- The two canonical files of a store (`library_data.json`,
`library_data.csv`); `Option.none` means the file does not exist. -/
structure FS where
  jsonFile : Option FileData
  csvFile : Option FileData
deriving DecidableEq

/-- State of a `Library` instance: the in-memory collection plus the canonical
files it is mirrored to. -/
structure Library where
  books : List Book
  fs : FS
deriving DecidableEq

/-- The CSV header written by `_save_to_csv` (the `fieldnames` list). -/
def csvHeader : List String := ["title", "author", "genre", "year"]

/-- The CSV data row `DictWriter.writerow` emits for one book. -/
def csvRow (b : Book) : List String :=
  [csvStr b.title, csvStr b.author, csvStr b.genre, csvStr b.year]

/-- File contents written by `_save_to_json`: the JSON array of
`book.to_dict()` mappings. -/
def jsonSerialize (books : List Book) : FileData :=
  .jsonArr (books.map Book.to_dict)

/-- File contents written by `_save_to_csv`: header row then one row per book
in collection order. -/
def csvSerialize (books : List Book) : FileData :=
  .csvTable csvHeader (books.map csvRow)

/-- `Library.save_library`: writes the collection to the canonical JSON or CSV
file according to `format` and reports success; any other format string
returns `False` without writing. -/
def Library.save_library (lib : Library) (format : String) : Library × Bool :=
  if format = "json" then
    ({lib with fs := {lib.fs with jsonFile := some (jsonSerialize lib.books)}}, true)
  else if format = "csv" then
    ({lib with fs := {lib.fs with csvFile := some (csvSerialize lib.books)}}, true)
  else (lib, false)

/-- The list comprehension `[Book.from_dict(bd) for bd in data]`: left to
right, stopping at the first raised error. -/
def booksFromDicts : List Dict → Except PyError (List Book)
  | [] => .ok []
  | d :: ds =>
    match Book.from_dict d with
    | .error e => .error e
    | .ok b =>
      match booksFromDicts ds with
      | .error e => .error e
      | .ok bs => .ok (b :: bs)

/-- `row[k]` for a `csv.DictReader` row: `KeyError` when the header lacks `k`,
the cell string when present, and the fill value `None` when the row is
shorter than the header. -/
def csvCell (header row : List String) (k : String) : Except PyError PyVal :=
  match header.findIdx? (fun h => h == k) with
  | some i =>
    .ok (match row[i]? with
         | some s => .str s
         | none => PyVal.none)
  | none => .error (.keyError k)

/-- `Book(row['title'], row['author'], row['genre'], int(row['year']))` for
one CSV row, with Python's left-to-right argument evaluation. -/
def csvRowToBook (header row : List String) : Except PyError Book :=
  match csvCell header row "title" with
  | .error e => .error e
  | .ok t =>
    match csvCell header row "author" with
    | .error e => .error e
    | .ok a =>
      match csvCell header row "genre" with
      | .error e => .error e
      | .ok g =>
        match csvCell header row "year" with
        | .error e => .error e
        | .ok yv =>
          match pyIntOf yv with
          | .error e => .error e
          | .ok y => .ok ⟨t, a, g, .int y⟩

/-- The list comprehension over `csv.DictReader` rows in `_load_from_csv` and
`import_library`. -/
def booksFromRows (header : List String) : List (List String) → Except PyError (List Book)
  | [] => .ok []
  | r :: rs =>
    match csvRowToBook header r with
    | .error e => .error e
    | .ok b =>
      match booksFromRows header rs with
      | .error e => .error e
      | .ok bs => .ok (b :: bs)

/-- Parsing a file's contents as `_load_from_json` does: anything that is not
a JSON array of objects raises. -/
def jsonLoadFile : FileData → Except PyError (List Book)
  | .jsonArr ds => booksFromDicts ds
  | _ => .error .jsonDecodeError

/-- Parsing a file's contents as `_load_from_csv` does: contents that are not
a CSV table fail while being consumed. -/
def csvLoadFile : FileData → Except PyError (List Book)
  | .csvTable h rows => booksFromRows h rows
  | _ => .error .valueError

/-- Outcome of a construction-time load attempt: the parsed books with `True`,
or (after the caught exception) the still-empty collection with `False`. -/
def loadOutcome : Except PyError (List Book) → List Book × Bool
  | .ok bs => (bs, true)
  | .error _ => ([], false)

/-- `Library.load_library` as called from `__init__` (where `self.books` was
just set to `[]`): prefer the canonical JSON file, else the canonical CSV
file, else keep the empty collection. -/
def Library.load_library (fs : FS) : List Book × Bool :=
  match fs.jsonFile with
  | some f => loadOutcome (jsonLoadFile f)
  | none =>
    match fs.csvFile with
    | some f => loadOutcome (csvLoadFile f)
    | none => ([], false)

/-- `Library.add_book`: append, then `save_library()` (canonical JSON). -/
def Library.add_book (lib : Library) (b : Book) : Library :=
  (Library.save_library {lib with books := lib.books ++ [b]} "json").1

/-- The `for i, book in enumerate(self.books)` loop of `remove_book`: `some`
of the collection with the first case-insensitive title match deleted, `none`
when no book matches, propagating the `AttributeError` of `title.lower()` on a
non-string title. -/
def removeLoop (tl : String) : List Book → Except PyError (Option (List Book))
  | [] => .ok none
  | b :: rest =>
    match PyVal.lower b.title with
    | .error e => .error e
    | .ok bt =>
      if bt = tl then .ok (some rest)
      else
        match removeLoop tl rest with
        | .error e => .error e
        | .ok o => .ok (o.map (fun l => b :: l))

/-- `Library.remove_book`: delete the first case-insensitive title match and
persist, returning `True`; return `False` leaving everything untouched when no
book matches. -/
def Library.remove_book (lib : Library) (title : String) : Except PyError (Library × Bool) :=
  match removeLoop (pyLower title) lib.books with
  | .error e => .error e
  | .ok none => .ok (lib, false)
  | .ok (some books2) =>
    .ok ((Library.save_library {lib with books := books2} "json").1, true)

/-- The `or`-chained membership test of `search_books` for one book, with
Python's short-circuit evaluation (`q` is the already-lowercased query). -/
def bookMatches (q : String) (b : Book) : Except PyError Bool :=
  match PyVal.lower b.title with
  | .error e => .error e
  | .ok t =>
    if pyStrIn q t then .ok true
    else
      match PyVal.lower b.author with
      | .error e => .error e
      | .ok a =>
        if pyStrIn q a then .ok true
        else
          match PyVal.lower b.genre with
          | .error e => .error e
          | .ok g => .ok (pyStrIn q g)

/-- The accumulation loop of `search_books`. -/
def searchLoop (q : String) : List Book → Except PyError (List Book)
  | [] => .ok []
  | b :: rest =>
    match bookMatches q b with
    | .error e => .error e
    | .ok m =>
      match searchLoop q rest with
      | .error e => .error e
      | .ok r => .ok (if m then b :: r else r)

/-- `Library.search_books`: lowercase the query once, then filter the
collection in order without mutating it. -/
def Library.search_books (lib : Library) (query : String) : Except PyError (List Book) :=
  searchLoop (pyLower query) lib.books

/-- `Library.get_all_books`. -/
def Library.get_all_books (lib : Library) : List Book := lib.books

/-- Opening and parsing the import file as JSON; an absent or unreadable file
raises `IOError`. -/
def readJsonFile : Option FileData → Except PyError (List Book)
  | none => .error .ioError
  | some f => jsonLoadFile f

/-- Opening and parsing the import file as CSV; an absent or unreadable file
raises `IOError`. -/
def readCsvFile : Option FileData → Except PyError (List Book)
  | none => .error .ioError
  | some f => csvLoadFile f

/-- `Library.import_library`: choose the parser by file extension (anything
but `.json` / `.csv` reports failure), build `temp_books` completely, then
`extend` the collection and `save_library()` (canonical JSON).  `content` is
what is on disk at `filename`. -/
def Library.import_library (lib : Library) (filename : String) (content : Option FileData) :
    Library × Bool :=
  if pyEndsWith filename ".json" then
    match readJsonFile content with
    | .error _ => (lib, false)
    | .ok temp => ((Library.save_library {lib with books := lib.books ++ temp} "json").1, true)
  else if pyEndsWith filename ".csv" then
    match readCsvFile content with
    | .error _ => (lib, false)
    | .ok temp => ((Library.save_library {lib with books := lib.books ++ temp} "json").1, true)
  else (lib, false)

/-- Whether `b`'s title matches `title` case-insensitively, for a well-formed
book (the comparison `remove_book` performs). -/
def titleMatches (title : String) (b : Book) : Bool :=
  match b.title with
  | .str s => pyLower s == pyLower title
  | _ => false

/-- Whether a well-formed book matches a search query: the lowercased query
occurs in the lowercased title, author, or genre. -/
def wfSearchMatch (q : String) (b : Book) : Bool :=
  match b.title, b.author, b.genre with
  | .str t, .str a, .str g =>
    pyStrIn (pyLower q) (pyLower t) || pyStrIn (pyLower q) (pyLower a) ||
      pyStrIn (pyLower q) (pyLower g)
  | _, _, _ => false

/-- Value of a little-endian decimal digit string (proof helper relating
`decValue` to `natDecRevFuel`). -/
def revVal (cs : List Char) : Nat :=
  cs.foldr (fun c a => a * 10 + digitVal c) 0

/-- Sample record used to instantiate the theorems on concrete input. -/
def bookDune : Book :=
  ⟨.str "Dune", .str "Frank Herbert", .str "Sci-Fi", .int 1965⟩

/-- A second sample record. -/
def bookFoundation : Book :=
  ⟨.str "Foundation", .str "Isaac Asimov", .str "Sci-Fi", .int 1951⟩

/-- A filesystem with neither canonical file present. -/
def fs0 : FS := ⟨none, none⟩

/-- A two-record store over an empty filesystem. -/
def libTwo : Library := ⟨[bookDune, bookFoundation], fs0⟩

/-- A one-record store over an empty filesystem. -/
def libDuneOnly : Library := ⟨[bookDune], fs0⟩

/-- The store `libDuneOnly` after its one record is removed (the removal also
rewrites the canonical JSON file with the now-empty collection). -/
def libDuneRemoved : Library := ⟨[], {fs0 with jsonFile := some (jsonSerialize [])}⟩

/-- A record mapping whose `year` value is a string rather than an integer. -/
def badDict : Dict :=
  [("title", PyVal.str "Dune"), ("author", PyVal.str "Frank Herbert"),
   ("genre", PyVal.str "Sci-Fi"), ("year", PyVal.str "nineteen sixty-five")]

/-- The record `Book.from_dict` builds out of `badDict`. -/
def badYearBook : Book :=
  ⟨.str "Dune", .str "Frank Herbert", .str "Sci-Fi", .str "nineteen sixty-five"⟩

/-- Contents of a one-row CSV import file. -/
def fileExtraCsv : FileData :=
  .csvTable csvHeader [["Dune", "Frank Herbert", "Sci-Fi", "1965"]]

/-! ### Lemmas about decimal printing and parsing -/

/-- Facts about the ten decimal digit characters. -/
theorem digitCharFacts : ∀ r : Fin 10,
    (Char.ofNat (48 + r.val)).isDigit = true ∧
    digitVal (Char.ofNat (48 + r.val)) = r.val ∧
    (Char.ofNat (48 + r.val)).isWhitespace = false ∧
    Char.ofNat (48 + r.val) ≠ '+' ∧ Char.ofNat (48 + r.val) ≠ '-' := by decide

/-- Every character `natDecRevFuel` produces is a decimal digit character. -/
theorem natDecRevFuel_shape (fuel : Nat) :
    ∀ n : Nat, ∀ c ∈ natDecRevFuel fuel n, ∃ r : Fin 10, c = Char.ofNat (48 + r.val) := by
  induction fuel with
  | zero => intro n c hc; simp [natDecRevFuel] at hc
  | succ fuel ih =>
    intro n c hc
    by_cases hn : n = 0
    · simp [natDecRevFuel, hn] at hc
    · simp only [natDecRevFuel, hn, if_false, List.mem_cons] at hc
      rcases hc with hc | hc
      · exact ⟨⟨n % 10, Nat.mod_lt _ (by omega)⟩, by simpa using hc⟩
      · exact ih (n / 10) c hc

/-- With enough fuel, `natDecRevFuel` writes exactly the digits of `n`. -/
theorem revVal_natDecRevFuel (fuel : Nat) :
    ∀ n : Nat, n ≤ fuel → revVal (natDecRevFuel fuel n) = n := by
  induction fuel with
  | zero =>
    intro n h
    have hn : n = 0 := by omega
    simp [natDecRevFuel, hn, revVal]
  | succ fuel ih =>
    intro n h
    by_cases hn : n = 0
    · simp [natDecRevFuel, hn, revVal]
    · have h10 : n / 10 ≤ fuel := by omega
      have hd : digitVal (Char.ofNat (48 + n % 10)) = n % 10 :=
        (digitCharFacts ⟨n % 10, by omega⟩).2.1
      calc revVal (natDecRevFuel (fuel + 1) n)
          = revVal (natDecRevFuel fuel (n / 10)) * 10 + digitVal (Char.ofNat (48 + n % 10)) := by
            simp [natDecRevFuel, hn, revVal]
        _ = n / 10 * 10 + n % 10 := by rw [ih _ h10, hd]
        _ = n := by omega

/-- `natDecRevFuel` is nonempty when both the number and the fuel are. -/
theorem natDecRevFuel_ne_nil (fuel n : Nat) (hn : n ≠ 0) (hf : fuel ≠ 0) :
    natDecRevFuel fuel n ≠ [] := by
  cases fuel with
  | zero => exact absurd rfl hf
  | succ fuel => simp [natDecRevFuel, hn]

/-- `dropWhile` is the identity when no element satisfies the predicate. -/
theorem dropWhile_eq_self_of_none (p : Char → Bool) (l : List Char)
    (h : ∀ c ∈ l, p c = false) : l.dropWhile p = l := by
  cases l with
  | nil => rfl
  | cons c t => simp [List.dropWhile_cons, h c (by simp)]

/-- Stripping whitespace from a list with no whitespace characters is the
identity. -/
theorem stripWS_eq_self (cs : List Char) (h : ∀ c ∈ cs, c.isWhitespace = false) :
    stripWS cs = cs := by
  unfold stripWS
  rw [dropWhile_eq_self_of_none _ _ h,
    dropWhile_eq_self_of_none _ _ (fun c hc => h c (List.mem_reverse.mp hc)),
    List.reverse_reverse]

/-- Every character of `pyStrNatList n` is a decimal digit character. -/
theorem pyStrNatList_shape (n : Nat) :
    ∀ c ∈ pyStrNatList n, ∃ r : Fin 10, c = Char.ofNat (48 + r.val) := by
  intro c hc
  by_cases hn : n = 0
  · simp [pyStrNatList, hn] at hc
    refine ⟨⟨0, by omega⟩, ?_⟩
    rw [hc]
    rfl
  · simp only [pyStrNatList, hn, if_false, List.mem_reverse] at hc
    exact natDecRevFuel_shape n n c hc

/-- The digits of `n` all pass `Char.isDigit`. -/
theorem pyStrNatList_digits (n : Nat) : ∀ c ∈ pyStrNatList n, c.isDigit = true :=
  fun c hc => by
    obtain ⟨r, rfl⟩ := pyStrNatList_shape n c hc
    exact (digitCharFacts r).1

/-- The digits of `n` contain no whitespace. -/
theorem pyStrNatList_not_ws (n : Nat) : ∀ c ∈ pyStrNatList n, c.isWhitespace = false :=
  fun c hc => by
    obtain ⟨r, rfl⟩ := pyStrNatList_shape n c hc
    exact (digitCharFacts r).2.2.1

/-- A natural number always prints at least one digit. -/
theorem pyStrNatList_ne_nil (n : Nat) : pyStrNatList n ≠ [] := by
  by_cases hn : n = 0
  · simp [pyStrNatList, hn]
  · simp only [pyStrNatList, hn, if_false, ne_eq, List.reverse_eq_nil_iff]
    exact natDecRevFuel_ne_nil n n hn hn

/-- Reading back the printed digits of `n` yields `n`. -/
theorem decValue_pyStrNatList (n : Nat) : decValue (pyStrNatList n) = n := by
  by_cases hn : n = 0
  · simp [pyStrNatList, hn]; rfl
  · have hrev : decValue ((natDecRevFuel n n).reverse) = revVal (natDecRevFuel n n) := by
      simp only [decValue, revVal, List.foldl_reverse]
    simp only [pyStrNatList, hn, if_false, hrev]
    exact revVal_natDecRevFuel n n le_rfl

/-- Parsing the printed decimal form of an integer recovers the integer
(`int(str(i)) == i`). -/
theorem pyParseInt_pyStrInt (i : Int) : pyParseInt (pyStrInt i) = some i := by
  cases i with
  | ofNat m =>
    have hlist : (pyStrInt (Int.ofNat m)).toList = pyStrNatList m := rfl
    unfold pyParseInt
    rw [hlist, stripWS_eq_self _ (pyStrNatList_not_ws m)]
    obtain ⟨c, rest, hcr⟩ := List.exists_cons_of_ne_nil (pyStrNatList_ne_nil m)
    have hcmem : c ∈ pyStrNatList m := by rw [hcr]; exact List.mem_cons_self c rest
    obtain ⟨r, hceq⟩ := pyStrNatList_shape m c hcmem
    have hne1 : ¬ c = '+' := by rw [hceq]; exact (digitCharFacts r).2.2.2.1
    have hne2 : ¬ c = '-' := by rw [hceq]; exact (digitCharFacts r).2.2.2.2
    have hall : (c :: rest).all Char.isDigit = true := by
      rw [← hcr]
      exact List.all_eq_true.mpr (pyStrNatList_digits m)
    rw [hcr]
    simp only [hne1, hne2, if_false, hall, if_true]
    rw [← hcr, decValue_pyStrNatList]
    rfl
  | negSucc m =>
    have hlist : (pyStrInt (Int.negSucc m)).toList = '-' :: pyStrNatList (m + 1) := rfl
    have hws : ∀ c ∈ '-' :: pyStrNatList (m + 1), c.isWhitespace = false := by
      intro c hc
      rcases List.mem_cons.mp hc with hc | hc
      · rw [hc]; rfl
      · exact pyStrNatList_not_ws (m + 1) c hc
    unfold pyParseInt
    rw [hlist, stripWS_eq_self _ hws]
    obtain ⟨c, rest, hcr⟩ := List.exists_cons_of_ne_nil (pyStrNatList_ne_nil (m + 1))
    have hall : (pyStrNatList (m + 1)).all Char.isDigit = true :=
      List.all_eq_true.mpr (pyStrNatList_digits (m + 1))
    have hemp : (pyStrNatList (m + 1)).isEmpty = false := by rw [hcr]; rfl
    have h1 : ¬ ('-' : Char) = '+' := by decide
    simp only [h1, if_false, if_true, hall, hemp, Bool.not_false, Bool.and_self,
      decValue_pyStrNatList]
    simp [Int.negSucc_eq]

/-! ### Lemmas about record serialization -/

/-- `int(str(y))` on a dynamic string value. -/
theorem pyIntOf_pyStrInt (y : Int) : pyIntOf (PyVal.str (pyStrInt y)) = .ok y := by
  have h : pyIntOf (PyVal.str (pyStrInt y)) =
      match pyParseInt (pyStrInt y) with
      | some n => Except.ok n
      | none => Except.error PyError.valueError := rfl
  rw [h, pyParseInt_pyStrInt]

/-- A record mapping deserializes back to the record it came from. -/
theorem from_dict_to_dict (b : Book) : Book.from_dict (Book.to_dict b) = .ok b := rfl

/-- A JSON array of record mappings deserializes back to the records it came
from, in order. -/
theorem booksFromDicts_map (books : List Book) :
    booksFromDicts (books.map Book.to_dict) = .ok books := by
  induction books with
  | nil => rfl
  | cons b rest ih =>
    simp only [List.map_cons, booksFromDicts, from_dict_to_dict, ih]

/-- A well-formed record is four typed fields. -/
theorem Book.wf_destruct (b : Book) (h : b.wf = true) :
    ∃ t a g y, b = ⟨PyVal.str t, PyVal.str a, PyVal.str g, PyVal.int y⟩ := by
  obtain ⟨bt, ba, bg, byr⟩ := b
  cases bt <;> cases ba <;> cases bg <;> cases byr <;>
    simp_all [Book.wf, PyVal.isStr, PyVal.isInt]

/-- Reading back the CSV row written for a well-formed record yields the
record. -/
theorem csvRowToBook_csvRow (b : Book) (h : b.wf = true) :
    csvRowToBook csvHeader (csvRow b) = .ok b := by
  obtain ⟨t, a, g, y, rfl⟩ := Book.wf_destruct b h
  have h1 : csvRowToBook csvHeader (csvRow ⟨.str t, .str a, .str g, .int y⟩) =
      match pyIntOf (.str (pyStrInt y)) with
      | .error e => .error e
      | .ok n => .ok ⟨.str t, .str a, .str g, .int n⟩ := rfl
  rw [h1, pyIntOf_pyStrInt]

/-- Reading back the CSV rows written for well-formed records yields the
records, in order. -/
theorem booksFromRows_map (books : List Book) (h : ∀ b ∈ books, b.wf = true) :
    booksFromRows csvHeader (books.map csvRow) = .ok books := by
  induction books with
  | nil => rfl
  | cons b rest ih =>
    simp only [List.map_cons, booksFromRows, csvRowToBook_csvRow b (h b (by simp)),
      ih (fun x hx => h x (by simp [hx]))]

/-! ### Lemmas about searching -/

/-- The empty string is contained in every string. -/
theorem listContains_nil_needle (hay : List Char) : listContains hay [] = true := by
  cases hay <;> simp [listContains, List.isPrefixOf]

/-- On a well-formed record the short-circuit membership test of
`search_books` computes `wfSearchMatch` and raises nothing. -/
theorem bookMatches_wf (q : String) (b : Book) (h : b.wf = true) :
    bookMatches (pyLower q) b = .ok (wfSearchMatch q b) := by
  obtain ⟨t, a, g, y, rfl⟩ := Book.wf_destruct b h
  cases h1 : pyStrIn (pyLower q) (pyLower t) <;>
    cases h2 : pyStrIn (pyLower q) (pyLower a) <;>
      cases h3 : pyStrIn (pyLower q) (pyLower g) <;>
        simp [bookMatches, PyVal.lower, wfSearchMatch, h1, h2, h3]

/-- On a well-formed collection the search loop is `List.filter` by
`wfSearchMatch`. -/
theorem searchLoop_wf (q : String) (books : List Book) (h : ∀ b ∈ books, b.wf = true) :
    searchLoop (pyLower q) books = .ok (books.filter (wfSearchMatch q)) := by
  induction books with
  | nil => rfl
  | cons b rest ih =>
    simp only [searchLoop, bookMatches_wf q b (h b (by simp)),
      ih (fun x hx => h x (by simp [hx])), List.filter_cons]

/-- Every well-formed record matches the empty query. -/
theorem wfSearchMatch_empty (b : Book) (h : b.wf = true) : wfSearchMatch "" b = true := by
  obtain ⟨t, a, g, y, rfl⟩ := Book.wf_destruct b h
  have h1 : ∀ s : String, pyStrIn (pyLower "") s = true := by
    intro s
    exact listContains_nil_needle _
  simp [wfSearchMatch, h1]

/-! ### Lemmas about removal -/

/-- A record matching a title case-insensitively has a string title equal to
it after lowering. -/
theorem titleMatches_true_destruct (title : String) (b : Book)
    (h : titleMatches title b = true) :
    ∃ s, b.title = PyVal.str s ∧ pyLower s = pyLower title := by
  cases hb : b.title with
  | str s =>
    refine ⟨s, rfl, ?_⟩
    simp [titleMatches, hb] at h
    exact h
  | int n => simp [titleMatches, hb] at h
  | none => simp [titleMatches, hb] at h

/-- When no record of a well-formed collection matches the title, the removal
loop reports `none` without error. -/
theorem removeLoop_not_found (title : String) (books : List Book)
    (hwf : ∀ b ∈ books, b.wf = true)
    (hm : ∀ b ∈ books, titleMatches title b = false) :
    removeLoop (pyLower title) books = .ok none := by
  induction books with
  | nil => rfl
  | cons b rest ih =>
    obtain ⟨t, a, g, y, rfl⟩ := Book.wf_destruct b (hwf b (by simp))
    have hb := hm _ (List.mem_cons_self _ rest)
    simp only [titleMatches] at hb
    have hne : ¬ pyLower t = pyLower title := by simpa using hb
    simp [removeLoop, PyVal.lower, hne,
      ih (fun x hx => hwf x (by simp [hx])) (fun x hx => hm x (by simp [hx]))]

/-- When the collection splits as non-matching well-formed records, then a
matching record, the removal loop deletes exactly that record. -/
theorem removeLoop_found (title : String) (pre : List Book) (b : Book) (post : List Book)
    (hwfpre : ∀ x ∈ pre, x.wf = true)
    (hpre : ∀ x ∈ pre, titleMatches title x = false)
    (hb : titleMatches title b = true) :
    removeLoop (pyLower title) (pre ++ b :: post) = .ok (some (pre ++ post)) := by
  induction pre with
  | nil =>
    obtain ⟨s, hs, heq⟩ := titleMatches_true_destruct title b hb
    simp [removeLoop, hs, PyVal.lower, heq]
  | cons x pre ih =>
    obtain ⟨t, a, g, y, rfl⟩ := Book.wf_destruct x (hwfpre x (by simp))
    have hx := hpre _ (List.mem_cons_self _ pre)
    simp only [titleMatches] at hx
    have hne : ¬ pyLower t = pyLower title := by simpa using hx
    simp [removeLoop, PyVal.lower, hne,
      ih (fun z hz => hwfpre z (by simp [hz])) (fun z hz => hpre z (by simp [hz]))]

/-- Conversely, a successful removal on a well-formed collection always splits
it as non-matching records, the first matching record, and the rest. -/
theorem removeLoop_some_inv (title : String) :
    ∀ books : List Book, (∀ b ∈ books, b.wf = true) →
      ∀ books2, removeLoop (pyLower title) books = .ok (some books2) →
        ∃ pre b post, books = pre ++ b :: post ∧ books2 = pre ++ post ∧
          (∀ x ∈ pre, titleMatches title x = false) ∧ titleMatches title b = true := by
  intro books
  induction books with
  | nil => intro _ books2 h; simp [removeLoop] at h
  | cons b rest ih =>
    intro hwf books2 h
    obtain ⟨t, a, g, y, rfl⟩ := Book.wf_destruct b (hwf b (by simp))
    simp only [removeLoop, PyVal.lower] at h
    by_cases he : pyLower t = pyLower title
    · rw [if_pos he] at h
      have hrest : rest = books2 := by simpa using h
      subst hrest
      exact ⟨[], _, rest, rfl, rfl, by simp, by simp [titleMatches, he]⟩
    · rw [if_neg he] at h
      cases hr : removeLoop (pyLower title) rest with
      | error e => rw [hr] at h; simp at h
      | ok o =>
        rw [hr] at h
        cases o with
        | none => simp at h
        | some l =>
          have hb2 : books2 = ⟨PyVal.str t, PyVal.str a, PyVal.str g, PyVal.int y⟩ :: l := by
            simpa using h.symm
          obtain ⟨pre, bb, post, h1, h2, h3, h4⟩ :=
            ih (fun x hx => hwf x (by simp [hx])) l hr
          refine ⟨⟨PyVal.str t, PyVal.str a, PyVal.str g, PyVal.int y⟩ :: pre, bb, post,
            by simp [h1], by simp [hb2, h2], ?_, h4⟩
          intro x hx
          rcases List.mem_cons.mp hx with hx | hx
          · rw [hx]
            simp [titleMatches, he]
          · exact h3 x hx

/-! ### Claim theorems -/

/-- C1: persisting a well-formed collection and restoring it on a fresh store
pointed at that file reproduces an equal ordered sequence of records, both for
the JSON format and for the CSV format. -/
theorem claim_C1_roundtrip (books : List Book) (hwf : ∀ b ∈ books, b.wf = true) :
    Library.load_library ⟨some (jsonSerialize books), none⟩ = (books, true) ∧
    Library.load_library ⟨none, some (csvSerialize books)⟩ = (books, true) := by
  constructor
  · simp [Library.load_library, jsonSerialize, jsonLoadFile, booksFromDicts_map, loadOutcome]
  · simp [Library.load_library, csvSerialize, csvLoadFile,
      booksFromRows_map books hwf, loadOutcome]

/-- Witness for C1: the round trip at a concrete two-record collection. -/
theorem claim_C1_roundtrip_witness :
    (∀ b ∈ [bookDune, bookFoundation], b.wf = true) ∧
    Library.load_library ⟨some (jsonSerialize [bookDune, bookFoundation]), none⟩ =
      ([bookDune, bookFoundation], true) ∧
    Library.load_library ⟨none, some (csvSerialize [bookDune, bookFoundation])⟩ =
      ([bookDune, bookFoundation], true) :=
  ⟨by decide, (claim_C1_roundtrip _ (by decide)).1, (claim_C1_roundtrip _ (by decide)).2⟩

/-- Counterexample to C2 as stated: a mapping whose `year` value is a string
is accepted by `from_dict` with no error, and a canonical JSON file holding it
loads successfully, storing the string year as-is. -/
theorem claim_C2_counterexample :
    Book.from_dict badDict = .ok badYearBook ∧
    Library.load_library ⟨some (FileData.jsonArr [badDict]), none⟩ = ([badYearBook], true) :=
  ⟨rfl, rfl⟩

/-- C2 (amended): `from_dict` fails with a `KeyError` exactly when one of the
four required keys is absent (checked in the order title, author, genre,
year); a key that is present is accepted whatever the type of its value. -/
theorem claim_C2_amended (d : Dict) (t a g y : PyVal) :
    (d.lookup "title" = some t → d.lookup "author" = some a → d.lookup "genre" = some g →
      d.lookup "year" = some y → Book.from_dict d = .ok ⟨t, a, g, y⟩) ∧
    (d.lookup "title" = none → Book.from_dict d = .error (.keyError "title")) ∧
    (d.lookup "title" = some t → d.lookup "author" = none →
      Book.from_dict d = .error (.keyError "author")) ∧
    (d.lookup "title" = some t → d.lookup "author" = some a → d.lookup "genre" = none →
      Book.from_dict d = .error (.keyError "genre")) ∧
    (d.lookup "title" = some t → d.lookup "author" = some a → d.lookup "genre" = some g →
      d.lookup "year" = none → Book.from_dict d = .error (.keyError "year")) := by
  refine ⟨fun h1 h2 h3 h4 => ?_, fun h1 => ?_, fun h1 h2 => ?_, fun h1 h2 h3 => ?_,
    fun h1 h2 h3 h4 => ?_⟩ <;>
    simp [Book.from_dict, dictGet, *]

/-- Witness for C2 (amended): the wrong-typed year is accepted, and a mapping
missing the `author` key raises the corresponding `KeyError`. -/
theorem claim_C2_amended_witness :
    Book.from_dict badDict = .ok badYearBook ∧
    Book.from_dict [("title", PyVal.str "Dune")] = .error (.keyError "author") :=
  ⟨(claim_C2_amended badDict (PyVal.str "Dune") (PyVal.str "Frank Herbert")
      (PyVal.str "Sci-Fi") (PyVal.str "nineteen sixty-five")).1 rfl rfl rfl rfl,
   (claim_C2_amended [("title", PyVal.str "Dune")] (PyVal.str "Dune")
      PyVal.none PyVal.none PyVal.none).2.2.1 rfl rfl⟩

/-- C3: when an import fails — unsupported extension or a failed read or
parse — the in-memory collection (and the whole store) is left unchanged. -/
theorem claim_C3_import_failure (lib : Library) (filename : String)
    (content : Option FileData) :
    ((Library.import_library lib filename content).2 = false →
      (Library.import_library lib filename content).1 = lib) ∧
    (pyEndsWith filename ".json" = false → pyEndsWith filename ".csv" = false →
      Library.import_library lib filename content = (lib, false)) := by
  unfold Library.import_library
  by_cases h1 : pyEndsWith filename ".json" = true
  · cases hr : readJsonFile content with
    | error e => simp [h1, hr]
    | ok temp => simp [h1, hr]
  · by_cases h2 : pyEndsWith filename ".csv" = true
    · cases hr : readCsvFile content with
      | error e => simp [h1, hr, h2]
      | ok temp => simp [h1, hr, h2]
    · simp [Bool.not_eq_true] at h1 h2
      simp [h1, h2]

/-- Witness for C3: importing a `.txt` file fails and leaves the store
unchanged. -/
theorem claim_C3_import_failure_witness :
    Library.import_library libTwo "notes.txt" (some FileData.malformed) = (libTwo, false) :=
  (claim_C3_import_failure libTwo "notes.txt" (some FileData.malformed)).2
    (by decide) (by decide)

/-- C4: a successfully parsed import file appends its records to the end of
the existing collection (it does not replace it) and persists the merged
collection to the canonical (JSON) store file. -/
theorem claim_C4_import_appends (lib : Library) (filename : String)
    (content : Option FileData) (temp : List Book) :
    (pyEndsWith filename ".json" = true → readJsonFile content = .ok temp →
      Library.import_library lib filename content =
        (⟨lib.books ++ temp,
          {lib.fs with jsonFile := some (jsonSerialize (lib.books ++ temp))}⟩, true)) ∧
    (pyEndsWith filename ".json" = false → pyEndsWith filename ".csv" = true →
      readCsvFile content = .ok temp →
      Library.import_library lib filename content =
        (⟨lib.books ++ temp,
          {lib.fs with jsonFile := some (jsonSerialize (lib.books ++ temp))}⟩, true)) := by
  constructor
  · intro h1 h2
    simp [Library.import_library, h1, h2, Library.save_library]
  · intro h1 h2 h3
    simp [Library.import_library, h1, h2, h3, Library.save_library]

/-- Witness for C4: importing a one-row CSV into a two-record collection
yields three records in memory and three records in the canonical file. -/
theorem claim_C4_import_appends_witness :
    Library.import_library libTwo "extra.csv" (some fileExtraCsv) =
      (⟨libTwo.books ++ [bookDune],
        {libTwo.fs with jsonFile := some (jsonSerialize (libTwo.books ++ [bookDune]))}⟩,
       true) ∧
    (libTwo.books ++ [bookDune]).length = 3 :=
  ⟨(claim_C4_import_appends libTwo "extra.csv" (some fileExtraCsv) [bookDune]).2
      (by decide) (by decide) (by rfl),
   by decide⟩

/-- C5: `remove_book` matches titles case-insensitively, deletes only the
first match in encounter order and returns `True` after persisting; with no
match it returns `False`, does not persist, and leaves the store unchanged —
an ordinary boolean outcome, not an error. -/
theorem claim_C5_remove (lib : Library) (title : String)
    (hwf : ∀ b ∈ lib.books, b.wf = true) :
    ((∀ b ∈ lib.books, titleMatches title b = false) →
      Library.remove_book lib title = .ok (lib, false)) ∧
    (∀ pre b post, lib.books = pre ++ b :: post →
      (∀ x ∈ pre, titleMatches title x = false) → titleMatches title b = true →
      Library.remove_book lib title =
        .ok (⟨pre ++ post,
          {lib.fs with jsonFile := some (jsonSerialize (pre ++ post))}⟩, true)) := by
  constructor
  · intro hm
    unfold Library.remove_book
    rw [removeLoop_not_found title lib.books hwf hm]
  · intro pre b post hsplit hpre hb
    unfold Library.remove_book
    rw [hsplit, removeLoop_found title pre b post
      (fun x hx => hwf x (by rw [hsplit]; simp [hx])) hpre hb]
    simp [Library.save_library]

/-- Witness for C5: removing "dune" from a store holding one record titled
"Dune" removes it and returns `True`; removing again returns `False` and
changes nothing. -/
theorem claim_C5_remove_witness :
    Library.remove_book libDuneOnly "dune" = .ok (libDuneRemoved, true) ∧
    Library.remove_book libDuneRemoved "dune" = .ok (libDuneRemoved, false) := by
  constructor
  · have h := (claim_C5_remove libDuneOnly "dune" (by decide)).2 [] bookDune [] rfl
      (by simp) (by decide)
    simpa using h
  · exact (claim_C5_remove libDuneRemoved "dune" (by decide)).1 (by decide)

/-- C6: `search_books` returns exactly the records whose title, author, or
genre contains the query as a case-insensitive substring, in collection
order, without mutating the store; the empty query matches every record. -/
theorem claim_C6_search (lib : Library) (q : String)
    (hwf : ∀ b ∈ lib.books, b.wf = true) :
    Library.search_books lib q = .ok (lib.books.filter (wfSearchMatch q)) ∧
    Library.search_books lib "" = .ok lib.books := by
  constructor
  · exact searchLoop_wf q lib.books hwf
  · have h2 := searchLoop_wf "" lib.books hwf
    rw [List.filter_eq_self.mpr (fun b hb => by
      rw [wfSearchMatch_empty b (hwf b hb)])] at h2
    exact h2

/-- Witness for C6: on the Dune / Foundation collection, "dune" matches only
the first record, and the empty query returns the whole collection. -/
theorem claim_C6_search_witness :
    Library.search_books libTwo "dune" = .ok [bookDune] ∧
    Library.search_books libTwo "" = .ok libTwo.books := by
  have h := claim_C6_search libTwo "dune" (by decide)
  refine ⟨?_, h.2⟩
  rw [h.1]
  rfl

/-- C7: `add_book` appends the record with no duplicate check and persists the
whole collection to the canonical JSON file; the size grows by exactly one and
the new record is last. -/
theorem claim_C7_add (lib : Library) (b : Book) :
    Library.add_book lib b =
      ⟨lib.books ++ [b],
        {lib.fs with jsonFile := some (jsonSerialize (lib.books ++ [b]))}⟩ ∧
    (Library.add_book lib b).books.length = lib.books.length + 1 ∧
    (Library.add_book lib b).books.getLast? = some b := by
  have h : Library.add_book lib b =
      ⟨lib.books ++ [b],
        {lib.fs with jsonFile := some (jsonSerialize (lib.books ++ [b]))}⟩ := by
    simp [Library.add_book, Library.save_library]
  refine ⟨h, ?_, ?_⟩ <;> rw [h] <;> simp

/-- C8: on construction the store loads the canonical JSON file when it
exists; only when it is absent does it consult the canonical CSV file; with
neither file present the collection starts empty. -/
theorem claim_C8_load_order (fs : FS) (f : FileData) :
    (fs.jsonFile = some f → Library.load_library fs = loadOutcome (jsonLoadFile f)) ∧
    (fs.jsonFile = none → fs.csvFile = some f →
      Library.load_library fs = loadOutcome (csvLoadFile f)) ∧
    (fs.jsonFile = none → fs.csvFile = none → Library.load_library fs = ([], false)) := by
  refine ⟨fun h1 => ?_, fun h1 h2 => ?_, fun h1 h2 => ?_⟩ <;>
    simp [Library.load_library, *]

/-- Witness for C8: with both canonical files present, the JSON one wins. -/
theorem claim_C8_load_order_witness :
    Library.load_library ⟨some (jsonSerialize [bookDune]),
      some (csvSerialize [bookFoundation])⟩ = ([bookDune], true) := by
  have h := (claim_C8_load_order ⟨some (jsonSerialize [bookDune]),
    some (csvSerialize [bookFoundation])⟩ (jsonSerialize [bookDune])).1 rfl
  rw [h]
  decide

/-- C9: `save_library` with a format other than "json" or "csv" returns
`False` without raising, without writing a file, and without touching the
collection. -/
theorem claim_C9_save_bad_format (lib : Library) (format : String)
    (h1 : format ≠ "json") (h2 : format ≠ "csv") :
    Library.save_library lib format = (lib, false) := by
  simp [Library.save_library, h1, h2]

/-- Witness for C9 at the format string "xml". -/
theorem claim_C9_save_bad_format_witness :
    Library.save_library libTwo "xml" = (libTwo, false) :=
  claim_C9_save_bad_format libTwo "xml" (by decide) (by decide)

/-- C10: a removal that returns `True` removes exactly one record — the first
case-insensitive match — leaving every other record, and their relative
order, unchanged. -/
theorem claim_C10_remove_frame (lib : Library) (title : String) (lib2 : Library)
    (hwf : ∀ b ∈ lib.books, b.wf = true)
    (h : Library.remove_book lib title = .ok (lib2, true)) :
    ∃ pre b post, lib.books = pre ++ b :: post ∧ lib2.books = pre ++ post ∧
      (∀ x ∈ pre, titleMatches title x = false) ∧ titleMatches title b = true := by
  unfold Library.remove_book at h
  cases hr : removeLoop (pyLower title) lib.books with
  | error e => rw [hr] at h; simp at h
  | ok o =>
    rw [hr] at h
    cases o with
    | none => simp at h
    | some books2 =>
      simp [Library.save_library] at h
      obtain ⟨pre, b, post, h1, h2, h3, h4⟩ :=
        removeLoop_some_inv title lib.books hwf books2 hr
      refine ⟨pre, b, post, h1, ?_, h3, h4⟩
      rw [← h]
      exact h2

/-- Witness for C10 at the one-record store. -/
theorem claim_C10_remove_frame_witness :
    ∃ pre b post, libDuneOnly.books = pre ++ b :: post ∧
      libDuneRemoved.books = pre ++ post ∧
      (∀ x ∈ pre, titleMatches "dune" x = false) ∧ titleMatches "dune" b = true :=
  claim_C10_remove_frame libDuneOnly "dune" libDuneRemoved (by decide) (by rfl)
